import Mathlib

/-!
Shallow embedding of the state-bearing logic of src/index.tsx, a single-file
React video app. Pure helpers (isValidCommentText, translateTextWithGemini)
become Lean functions over List Char / String. The two stateful components
become explicit state records with one step function per event handler; a
React effect body is folded into the step whose state update changes one of
the effect's declared dependencies, in declaration order, matching the
component's effect lists. Machine floats (video currentTime) are modelled as
Nat seconds; nothing in the claims depends on fractional positions.
-/

namespace Uploadar

/-! Data model, translated from the interfaces at the top of src/index.tsx. -/

structure VideoSource where
  quality : String
  url : String
deriving DecidableEq, Repr

structure Plan where
  id : String
  name : String
  price : Nat
  timeLimitMinutes : Option Nat
  features : List String
deriving DecidableEq, Repr

structure Comment where
  id : String
  user : String
  city : String
  text : String
  translatedText : Option String
  targetLang : Option String
  likes : Nat
  dislikes : Nat
  timestamp : Nat
deriving DecidableEq, Repr

/-- The videoSources constant of src/index.tsx. -/
def videoSources : List VideoSource :=
  [ { quality := "360p", url := "http://commondatastorage.googleapis.com/gtv-videos-bucket/sample/ForBiggerFun.mp4" }
  , { quality := "480p", url := "http://commondatastorage.googleapis.com/gtv-videos-bucket/sample/ForBiggerJoyrides.mp4" }
  , { quality := "720p", url := "http://commondatastorage.googleapis.com/gtv-videos-bucket/sample/ForBiggerBlazes.mp4" }
  , { quality := "1080p", url := "http://commondatastorage.googleapis.com/gtv-videos-bucket/sample/ForBiggerEscapes.mp4" } ]

/-- The plans constant of src/index.tsx. -/
def plans : List Plan :=
  [ { id := "free", name := "Free", price := 0, timeLimitMinutes := some 5,
      features := ["Watch videos for 5 minutes"] }
  , { id := "bronze", name := "Bronze", price := 10, timeLimitMinutes := some 7,
      features := ["Watch videos for 7 minutes", "Basic Support"] }
  , { id := "silver", name := "Silver", price := 50, timeLimitMinutes := some 10,
      features := ["Watch videos for 10 minutes", "Email Support"] }
  , { id := "gold", name := "Gold", price := 100, timeLimitMinutes := none,
      features := ["Unlimited video watching", "Priority Support"] } ]

/-! Character classes of the comment-validation regex
    /^[a-zA-Z0-9\s.,!?'"():;\n-]*$/ in isValidCommentText (line 85). -/

/-- The regex class [a-zA-Z0-9]: ASCII letters and digits. -/
def jsWordChar (c : Char) : Bool :=
  (97 ≤ c.toNat && c.toNat ≤ 122) || (65 ≤ c.toNat && c.toNat ≤ 90) ||
  (48 ≤ c.toNat && c.toNat ≤ 57)

/-- The regex class backslash-s of JavaScript: tab, line feed, vertical tab,
form feed, carriage return, space, no-break space, ogham space mark, the
U+2000..U+200A spaces, line separator, paragraph separator, narrow no-break
space, medium mathematical space, ideographic space, and the byte order mark.
JavaScript String.prototype.trim strips this same set. -/
def jsWhitespace (c : Char) : Bool :=
  c.toNat = 9 || c.toNat = 10 || c.toNat = 11 || c.toNat = 12 || c.toNat = 13 ||
  c.toNat = 32 || c.toNat = 160 || c.toNat = 5760 ||
  (8192 ≤ c.toNat && c.toNat ≤ 8202) || c.toNat = 8232 || c.toNat = 8233 ||
  c.toNat = 8239 || c.toNat = 8287 || c.toNat = 12288 || c.toNat = 65279

/-- The punctuation literals of the regex class: . , ! ? apostrophe
double-quote ( ) : ; - (codepoints 39 and 34 are the two quote characters). -/
def allowedPunct (c : Char) : Bool :=
  c == '.' || c == ',' || c == '!' || c == '?' || c == Char.ofNat 39 ||
  c == Char.ofNat 34 || c == '(' || c == ')' || c == ':' || c == ';' || c == '-'

/-- One character of the allow-list actually implemented by the regex of
isValidCommentText: word characters, any JavaScript whitespace, or the listed
punctuation. -/
def allowedCommentChar (c : Char) : Bool :=
  jsWordChar c || jsWhitespace c || allowedPunct c

/-- isValidCommentText (src/index.tsx line 85): the regex is anchored with a
Kleene star over the class, so it accepts exactly the strings all of whose
characters are in the class. -/
def isValidCommentText (s : List Char) : Bool :=
  s.all allowedCommentChar

/-- JavaScript String.prototype.trim: drop whitespace from both ends. -/
def jsTrim (s : List Char) : List Char :=
  ((s.dropWhile jsWhitespace).reverse.dropWhile jsWhitespace).reverse

/-- The allow-list exactly as the claim and spec sentence write it:
[A-Za-z0-9 .,!?'"():;\n-], i.e. word characters, one literal space, one
literal line feed, and the punctuation. Written from the claim's words, to be
compared with allowedCommentChar, which is translated from the source. -/
def specAllowedChar (c : Char) : Bool :=
  jsWordChar c || c == ' ' || c.toNat = 10 || allowedPunct c

/-! Comment section handlers (CommentSection component, src/index.tsx
lines 329 to 427). The component state is the comment list plus the id of
the comment whose translation is in flight. -/

inductive SubmitError where
  | notLoggedIn
  | emptyText
  | disallowedChars
deriving DecidableEq, Repr

/-- handleCommentSubmit (line 356): reject when no user is logged in, when
the trimmed text is empty, or when it fails isValidCommentText; otherwise
prepend the new comment (id and timestamp both Date.now()). -/
def handleCommentSubmit (currentUser : Option String) (city : String)
    (rawText : List Char) (now : Nat) (comments : List Comment) :
    Except SubmitError (List Comment) :=
  match currentUser with
  | none => .error .notLoggedIn
  | some u =>
    let trimmed := jsTrim rawText
    if trimmed.isEmpty then .error .emptyText
    else if isValidCommentText trimmed = false then .error .disallowedChars
    else
      .ok ({ id := toString now, user := u, city := city, text := String.mk trimmed,
             translatedText := none, targetLang := none,
             likes := 0, dislikes := 0, timestamp := now } :: comments)

/-- handleLike (line 385): map over the list, bump likes of the matching id. -/
def handleLike (idq : String) (comments : List Comment) : List Comment :=
  comments.map fun c => if c.id = idq then { c with likes := c.likes + 1 } else c

/-- The per-element body of handleDislike's map (line 391): the matching
comment either reaches the threshold (dropped, removal flag set) or gets its
dislike count bumped; other comments pass through. -/
def dislikeTransform (idq : String) (c : Comment) : Option Comment × Bool :=
  if c.id = idq then
    if 2 ≤ c.dislikes + 1 then (none, true)
    else (some { c with dislikes := c.dislikes + 1 }, false)
  else (some c, false)

/-- handleDislike (line 389): map then filter(Boolean); the second component
is the commentRemoved flag that triggers the removal alert. -/
def handleDislike (idq : String) (comments : List Comment) : List Comment × Bool :=
  let mapped := comments.map (dislikeTransform idq)
  (mapped.filterMap Prod.fst, mapped.any Prod.snd)

/-- handleTranslateClick in CommentItem (line 297): the early return fires
only when the stored translated text equals the comment's original text and
the stored target language equals the selected one; the function returns true
exactly when the click proceeds to call onTranslate. -/
def handleTranslateClick (c : Comment) (targetLang : String) : Bool :=
  !(decide (c.translatedText = some c.text) && decide (c.targetLang = some targetLang))

/-- The disabled condition of the Translate button and language select in
CommentItem (line 314): disabled while this comment's translation is in
flight or while the ai capability is absent. -/
def translateButtonDisabled (translatingCommentId : Option String)
    (aiPresent : Bool) (c : Comment) : Bool :=
  decide (translatingCommentId = some c.id) || !aiPresent

/-- The unavailability notice at the bottom of the comment list (line 467):
shown exactly when the ai capability is absent. -/
def translationUnavailableMessageShown (aiPresent : Bool) : Bool :=
  !aiPresent

/-- translateTextWithGemini (line 70). aiPresent models whether the ai
constant is non-null (an API key was configured); svc is the outcome of the
external generateContent call when it is made: some t is a response whose
text field is t, none is a thrown error. Returns the resulting string and
whether the external service was invoked. -/
def translateTextWithGemini (aiPresent : Bool) (svc : Option String)
    (text targetLanguage : String) : String × Bool :=
  if aiPresent = false then
    ("Translation unavailable (API key missing): " ++ text, false)
  else if text = "" then (text, false)
  else if targetLanguage = "" then (text, false)
  else
    match svc with
    | some t => (if t = "" then text else t, true)
    | none => ("Translation failed: " ++ text, true)

/-- The completion update inside handleTranslate (line 416): map over the
current list, writing translatedText and targetLang into the comment whose id
matches; an absent id leaves every element, hence the list, unchanged. -/
def applyTranslation (idq targetLang translated : String)
    (comments : List Comment) : List Comment :=
  comments.map fun c =>
    if c.id = idq then { c with translatedText := some translated, targetLang := some targetLang }
    else c

/-- handleTranslate (line 409), run to completion with no interleaving: early
return when the id is not found or the ai capability is absent; otherwise
translate the found comment's text and apply the completion update. The
second component records whether the external service was invoked. -/
def handleTranslate (aiPresent : Bool) (svc : Option String)
    (idq targetLang : String) (comments : List Comment) : List Comment × Bool :=
  match comments.find? (fun c => decide (c.id = idq)) with
  | none => (comments, false)
  | some c =>
    if aiPresent = false then (comments, false)
    else
      let r := translateTextWithGemini aiPresent svc c.text targetLang
      (applyTranslation idq targetLang r.1 comments, r.2)

/-- CommentSection state: the list plus translatingCommentId. -/
structure ModeratorState where
  comments : List Comment
  translatingCommentId : Option String
deriving DecidableEq, Repr

/-- The start of handleTranslate as an async operation: the find and ai
guards, then setTranslatingCommentId(id); returns the text handed to the
translator when the call proceeds. -/
def handleTranslateStart (aiPresent : Bool) (idq : String) (st : ModeratorState) :
    ModeratorState × Option String :=
  match st.comments.find? (fun c => decide (c.id = idq)) with
  | none => (st, none)
  | some c =>
    if aiPresent = false then (st, none)
    else ({ st with translatingCommentId := some idq }, some c.text)

/-- The completion of handleTranslate: the setComments updater applied to the
collection as it stands at completion time, and the finally block clearing
translatingCommentId. -/
def handleTranslateComplete (idq targetLang translated : String)
    (st : ModeratorState) : ModeratorState :=
  { comments := applyTranslation idq targetLang translated st.comments,
    translatingCommentId := none }

/-! VideoPlayer component (src/index.tsx lines 168 to 252). Component state:
currentSourceUrl, selectedQuality, isVideoPlayingBeforeQualityChange (here
wasPlaying) and timeLimitReached, plus the video element's own currentTime
and paused, plus the onloadeddata closure installed during a quality switch,
which captures the position and the flag value of the render in which the
switch effect ran. The plan prop is kept in the state so that setPlan is an
event. One step function per event source: the quality select's change
handler, the video element's play, pause, timeupdate and loadeddata events,
and a change of the currentPlan prop. Each step runs the handler and then
the effect bodies whose dependency lists saw a changed value, in declaration
order (the quality-switch effect of line 175, then the plan effect of line
196); an effect whose dependencies did not change does not run, mirroring
the dependency arrays in the source. -/

inductive Directive where
  | loadSource (url : String)
  | seekTo (t : Nat)
  | playSink
  | pauseSink
  | limitAlert
deriving DecidableEq, Repr

structure PendingLoad where
  capturedTime : Nat
  resumeFlag : Bool
deriving DecidableEq, Repr

structure PState where
  plan : Plan
  currentSourceUrl : String
  selectedQuality : String
  videoTime : Nat
  videoPaused : Bool
  wasPlaying : Bool
  timeLimitReached : Bool
  pendingLoad : Option PendingLoad
deriving DecidableEq, Repr

/-- Initial VideoPlayer state (lines 169 to 173): first source selected with
empty-string fallbacks, video paused at position zero, flags cleared. -/
def initPlayer (sources : List VideoSource) (plan : Plan) : PState :=
  { plan := plan
  , currentSourceUrl := ((sources.head?).map VideoSource.url).getD ""
  , selectedQuality := ((sources.head?).map VideoSource.quality).getD ""
  , videoTime := 0
  , videoPaused := true
  , wasPlaying := false
  , timeLimitReached := false
  , pendingLoad := none }

/-- Follows the spec claim's words (C9): a session with zero sources is
rejected at creation time with ConfigurationError. Written from the claim,
to be compared with initPlayer, which is translated from the source. -/
inductive ConfigError where
  | configurationError
deriving DecidableEq, Repr

/-- Follows the spec claim's words (C9); see ConfigError. -/
def specCreateSession (sources : List VideoSource) (plan : Plan) :
    Except ConfigError PState :=
  if sources = [] then .error .configurationError
  else .ok (initPlayer sources plan)

/-- The quality-switch effect (line 175), dependencies [selectedQuality,
sources, currentSourceUrl, wasPlaying]: when the selected quality names a
source whose url differs from the current one, capture the current position,
switch the source url, and install the onloadeddata closure over the captured
position and the current wasPlaying flag. -/
def effectQualitySwitch (sources : List VideoSource) (s : PState) :
    PState × List Directive :=
  match sources.find? (fun v => decide (v.quality = s.selectedQuality)) with
  | none => (s, [])
  | some src =>
    if src.url = s.currentSourceUrl then (s, [])
    else
      ({ s with currentSourceUrl := src.url
              , pendingLoad := some { capturedTime := s.videoTime, resumeFlag := s.wasPlaying } },
       [Directive.loadSource src.url])

/-- The plan effect (line 196), dependencies [currentPlan, wasPlaying]:
unconditionally clear timeLimitReached, then, if the video is paused and the
flag is set and the plan's limit (if any) is not already exceeded, play. -/
def effectPlanChange (s : PState) : PState × List Directive :=
  let s1 := { s with timeLimitReached := false }
  if s1.videoPaused && s1.wasPlaying then
    match s1.plan.timeLimitMinutes with
    | none => ({ s1 with videoPaused := false }, [Directive.playSink])
    | some m =>
      if s1.videoTime < m * 60 then ({ s1 with videoPaused := false }, [Directive.playSink])
      else (s1, [])
  else (s1, [])

/-- handleQualityChange (line 205) followed by the effect runs its state
updates trigger: when the video is playing, set the flag and pause it;
otherwise clear the flag; then select the new quality. The quality-switch
effect reruns when selectedQuality or the flag changed; the plan effect
reruns when the flag changed. -/
def stepSelectQuality (sources : List VideoSource) (s : PState) (q : String) :
    PState × List Directive :=
  let pauseDirs : List Directive := if s.videoPaused then [] else [Directive.pauseSink]
  let s1 :=
    if s.videoPaused then { s with wasPlaying := false, selectedQuality := q }
    else { s with wasPlaying := true, videoPaused := true, selectedQuality := q }
  let r1 :=
    if q = s.selectedQuality ∧ s1.wasPlaying = s.wasPlaying then (s1, ([] : List Directive))
    else effectQualitySwitch sources s1
  let r2 :=
    if s1.wasPlaying = s.wasPlaying then (r1.1, ([] : List Directive))
    else effectPlanChange r1.1
  (r2.1, pauseDirs ++ r1.2 ++ r2.2)

/-- The video element's play event (onPlay, line 235): the video is now
playing and the flag is set; when the flag value changed, both effects rerun. -/
def stepPlayEvt (sources : List VideoSource) (s : PState) : PState × List Directive :=
  let s1 := { s with videoPaused := false, wasPlaying := true }
  if s.wasPlaying then (s1, [])
  else
    let r1 := effectQualitySwitch sources s1
    let r2 := effectPlanChange r1.1
    (r2.1, r1.2 ++ r2.2)

/-- The video element's pause event (onPause, line 236): the video is now
paused and the flag is cleared; when the flag value changed, both effects
rerun. -/
def stepPauseEvt (sources : List VideoSource) (s : PState) : PState × List Directive :=
  let s1 := { s with videoPaused := true, wasPlaying := false }
  if s.wasPlaying = false then (s1, [])
  else
    let r1 := effectQualitySwitch sources s1
    let r2 := effectPlanChange r1.1
    (r2.1, r1.2 ++ r2.2)

/-- handleTimeUpdate (line 215) on a timeupdate event reporting position t:
when the plan has a limit, timeLimitReached is clear, and t has reached the
limit in seconds, pause the sink, set timeLimitReached and raise the limit
alert. No effect dependency changes, so no effect reruns. -/
def stepTick (s : PState) (t : Nat) : PState × List Directive :=
  let s1 := { s with videoTime := t }
  match s.plan.timeLimitMinutes with
  | none => (s1, [])
  | some m =>
    if s.timeLimitReached then (s1, [])
    else if m * 60 ≤ t then
      ({ s1 with videoPaused := true, timeLimitReached := true },
       [Directive.pauseSink, Directive.limitAlert])
    else (s1, [])

/-- A change of the currentPlan prop: the plan effect reruns exactly when the
plan value changed. -/
def stepSetPlan (s : PState) (p : Plan) : PState × List Directive :=
  if p = s.plan then ({ s with plan := p }, [])
  else effectPlanChange { s with plan := p }

/-- The video element's loadeddata event: a freshly loaded source starts at
position zero; the closure installed by the quality-switch effect, if any,
seeks back to the captured position when it was positive and resumes when the
captured flag is set and the video is paused, then uninstalls itself. -/
def stepLoadedData (s : PState) : PState × List Directive :=
  match s.pendingLoad with
  | none => ({ s with videoTime := 0 }, [])
  | some pl =>
    let s0 := { s with videoTime := 0 }
    let r1 : PState × List Directive :=
      if 0 < pl.capturedTime then
        ({ s0 with videoTime := pl.capturedTime }, [Directive.seekTo pl.capturedTime])
      else (s0, [])
    let r2 : PState × List Directive :=
      if pl.resumeFlag && r1.1.videoPaused then
        ({ r1.1 with videoPaused := false }, [Directive.playSink])
      else (r1.1, [])
    ({ r2.1 with pendingLoad := none }, r1.2 ++ r2.2)

/-! Concrete instances used when evaluating the model on small inputs. -/

/-- The free plan of the plans constant: a five minute limit. -/
def freePlan : Plan :=
  { id := "free", name := "Free", price := 0, timeLimitMinutes := some 5,
    features := ["Watch videos for 5 minutes"] }

/-- The player state after the user presses play on a fresh session. -/
def playingState : PState :=
  (stepPlayEvt videoSources (initPlayer videoSources freePlan)).1

/-- The player state after a tick reaches the free plan's 300 second limit. -/
def lockedState : PState :=
  (stepTick playingState 300).1

/-- The playing session moved to position 7 seconds. -/
def midPlayState : PState :=
  { playingState with videoTime := 7 }

/-- A comment whose translation is done: translated to Spanish, with the
translated text differing from the original, as a real translation does. -/
def doneComment : Comment :=
  { id := "c1", user := "ana", city := "Mockville", text := "Hello",
    translatedText := some "Hola", targetLang := some "es",
    likes := 0, dislikes := 0, timestamp := 5 }

/-- A comment with no translation activity at all. -/
def idleComment : Comment :=
  { id := "c2", user := "bo", city := "Mockville", text := "Nice",
    translatedText := none, targetLang := none,
    likes := 0, dislikes := 0, timestamp := 5 }

/-- A comment one dislike away from the removal threshold. -/
def oneDislikeComment : Comment :=
  { id := "c3", user := "cy", city := "Mockville", text := "Meh",
    translatedText := none, targetLang := none,
    likes := 0, dislikes := 1, timestamp := 5 }

/-- Raw comment text containing an interior tab character. -/
def tabRaw : List Char := ['a', Char.ofNat 9, 'b']

/-- Raw comment text of the spec's positive submission example. -/
def greatVideoRaw : List Char := "Great video!".data

/-- The comment produced by submitting "first" at millisecond 42. -/
def firstComment : Comment :=
  { id := "42", user := "alice", city := "Mockville", text := "first",
    translatedText := none, targetLang := none,
    likes := 0, dislikes := 0, timestamp := 42 }

/-- The comment produced by submitting "second" also at millisecond 42. -/
def secondComment : Comment :=
  { id := "42", user := "bob", city := "Mockville", text := "second",
    translatedText := none, targetLang := none,
    likes := 0, dislikes := 0, timestamp := 42 }

/-! Helper lemmas shared across the development. -/

theorem applyTranslation_absent (idq targetLang translated : String) :
    ∀ l : List Comment, (∀ c ∈ l, c.id ≠ idq) →
      applyTranslation idq targetLang translated l = l := by
  intro l
  induction l with
  | nil => intro _; rfl
  | cons a t ih =>
    intro h
    have ha : ¬ (a.id = idq) := h a (List.mem_cons_self a t)
    have ht : applyTranslation idq targetLang translated t = t :=
      ih fun c hc => h c (List.mem_cons_of_mem a hc)
    simp only [applyTranslation, List.map_cons] at ht ⊢
    rw [if_neg ha, ht]

theorem handleLike_absent (idq : String) :
    ∀ l : List Comment, (∀ c ∈ l, c.id ≠ idq) → handleLike idq l = l := by
  intro l
  induction l with
  | nil => intro _; rfl
  | cons a t ih =>
    intro h
    have ha : ¬ (a.id = idq) := h a (List.mem_cons_self a t)
    have ht : handleLike idq t = t := ih fun c hc => h c (List.mem_cons_of_mem a hc)
    simp only [handleLike, List.map_cons] at ht ⊢
    rw [if_neg ha, ht]

theorem dislike_map_absent (idq : String) :
    ∀ l : List Comment, (∀ c ∈ l, c.id ≠ idq) →
      (l.map (dislikeTransform idq)).filterMap Prod.fst = l ∧
      (l.map (dislikeTransform idq)).any Prod.snd = false := by
  intro l
  induction l with
  | nil => intro _; exact ⟨rfl, rfl⟩
  | cons a t ih =>
    intro h
    have ha : ¬ (a.id = idq) := h a (List.mem_cons_self a t)
    have ht := ih fun c hc => h c (List.mem_cons_of_mem a hc)
    simp only [List.map_cons, List.filterMap_cons, List.any_cons, dislikeTransform,
      if_neg ha]
    exact ⟨by rw [ht.1], by rw [ht.2]; rfl⟩

/-! Claim theorems. -/

/-- Claim C7: when the comment targeted by a translation is gone at
completion time, the completion update leaves the collection unchanged and
simply clears the in-flight marker; the stale write is absorbed silently,
never surfaced as an error. -/
theorem stale_translation_discarded (idq targetLang translated : String)
    (st : ModeratorState) (habs : ∀ c ∈ st.comments, c.id ≠ idq) :
    handleTranslateComplete idq targetLang translated st =
      { comments := st.comments, translatingCommentId := none } := by
  unfold handleTranslateComplete
  rw [applyTranslation_absent idq targetLang translated st.comments habs]

theorem stale_translation_discarded_witness :
    handleTranslateComplete "gone" "es" "Hola"
        { comments := [idleComment], translatingCommentId := some "gone" } =
      { comments := [idleComment], translatingCommentId := none } :=
  stale_translation_discarded "gone" "es" "Hola"
    { comments := [idleComment], translatingCommentId := some "gone" } (by decide)

/-- Claim C8 counterexample: with the Translator capability absent, a
translation request on an existing comment is a silent no-op: the collection
is unchanged and no Failed outcome is recorded anywhere (the comment stays
with no translation fields), contradicting the claim that unavailability is
treated as a permanent Failed outcome. -/
theorem translator_absent_counterexample :
    handleTranslate false (some "Bonjour") "c2" "fr" [idleComment] = ([idleComment], false)
  ∧ idleComment.translatedText = none ∧ idleComment.targetLang = none :=
  ⟨rfl, rfl, rfl⟩

/-- Claim C8 (amended): with the Translator capability absent, a translation
request returns without invoking the Translator and without changing any
state; the helper, if called directly, returns an unavailability fallback
string without invoking the service; and the capability's absence is exposed
to the caller: the translate action is disabled and the unavailability notice
is shown. -/
theorem translator_absent_behavior :
    (∀ (svc : Option String) (idq lang : String) (comments : List Comment),
        handleTranslate false svc idq lang comments = (comments, false))
  ∧ (∀ (svc : Option String) (text lang : String),
        translateTextWithGemini false svc text lang =
          ("Translation unavailable (API key missing): " ++ text, false))
  ∧ (∀ (tid : Option String) (c : Comment), translateButtonDisabled tid false c = true)
  ∧ translationUnavailableMessageShown false = true := by
  refine ⟨?_, ?_, ?_, rfl⟩
  · intro svc idq lang comments
    unfold handleTranslate
    cases h : comments.find? (fun c => decide (c.id = idq)) <;> simp
  · intro svc text lang
    rfl
  · intro tid c
    simp [translateButtonDisabled]

/-- Claim C6 counterexample: a comment whose translation is Done for target
language es (translated text differing from the original, as any real
translation does): a repeat request for the same language is not a cached
no-op. The click guard lets it through, and the handler invokes the
Translator again. -/
theorem translation_cache_counterexample :
    handleTranslateClick doneComment "es" = true
  ∧ (handleTranslate true (some "Hola") "c1" "es" [doneComment]).2 = true :=
  ⟨rfl, rfl⟩

/-- Claim C6 (amended): the repeat-click guard skips the request only when
the stored translated text equals the comment's original text and the stored
language equals the requested one; otherwise a repeat request with the same
language re-invokes the Translator. In-flight deduplication is enforced by
disabling the comment's translate button while its id is the in-flight id,
not by an AlreadyInFlight rejection inside the handler: the handler, when it
finds the comment and the capability is present and the text and language
are nonempty, always invokes the Translator. -/
theorem translation_dedup_mechanism :
    (∀ (c : Comment) (lang : String),
        handleTranslateClick c lang = false ↔
          c.translatedText = some c.text ∧ c.targetLang = some lang)
  ∧ (∀ c : Comment, translateButtonDisabled (some c.id) true c = true)
  ∧ (∀ (svc : Option String) (idq lang : String) (comments : List Comment) (c : Comment),
        comments.find? (fun d => decide (d.id = idq)) = some c →
        c.text ≠ "" → lang ≠ "" →
        (handleTranslate true svc idq lang comments).2 = true) := by
  refine ⟨?_, ?_, ?_⟩
  · intro c lang
    simp [handleTranslateClick]
  · intro c
    simp [translateButtonDisabled]
  · intro svc idq lang comments c hfind htext hlang
    unfold handleTranslate
    rw [hfind]
    simp only [Bool.true_eq_false, if_false]
    unfold translateTextWithGemini
    rw [if_neg (by simp), if_neg htext, if_neg hlang]
    cases svc <;> rfl

theorem translation_dedup_witness :
    (handleTranslate true none "c1" "fr" [doneComment]).2 = true :=
  translation_dedup_mechanism.2.2 none "c1" "fr" [doneComment] doneComment
    (by decide) (by decide) (by decide)

/-- Claim C4 counterexample: the tab character is outside the claim's
allow-list [A-Za-z0-9 .,!?'"():;\n-], yet a submission whose trimmed text
contains an interior tab succeeds, because the source regex uses the
whitespace class, which admits tab; so submit does not fail exactly on the
claim's character set. -/
theorem submit_charset_counterexample :
    specAllowedChar (Char.ofNat 9) = false
  ∧ Char.ofNat 9 ∈ jsTrim tabRaw
  ∧ handleCommentSubmit (some "alice") "Mockville" tabRaw 7 [] =
      .ok [{ id := "7", user := "alice", city := "Mockville", text := String.mk tabRaw,
             translatedText := none, targetLang := none,
             likes := 0, dislikes := 0, timestamp := 7 }] := by
  refine ⟨by decide, by decide, ?_⟩
  rfl

/-- Claim C4 (amended): submit fails exactly when the author is absent, the
trimmed text is empty, or the trimmed text contains a character outside the
set actually implemented: ASCII letters and digits, the punctuation
.,!?'"():;- and any JavaScript whitespace character (a strict superset of
the claim's space-and-newline); on success it prepends the new comment with
zero likes and dislikes and no translation state, newest first. Every
character of the claim's allow-list is accepted; the divergence is only that
further whitespace characters are accepted too. -/
theorem submit_validation (user : Option String) (city : String) (raw : List Char)
    (now : Nat) (comments : List Comment) :
    ((∃ e, handleCommentSubmit user city raw now comments = .error e) ↔
        user = none ∨ jsTrim raw = [] ∨ isValidCommentText (jsTrim raw) = false)
  ∧ (∀ u : String, user = some u → jsTrim raw ≠ [] →
        isValidCommentText (jsTrim raw) = true →
        handleCommentSubmit user city raw now comments =
          .ok ({ id := toString now, user := u, city := city,
                 text := String.mk (jsTrim raw),
                 translatedText := none, targetLang := none,
                 likes := 0, dislikes := 0, timestamp := now } :: comments))
  ∧ (∀ c : Char, specAllowedChar c = true → allowedCommentChar c = true) := by
  refine ⟨?_, ?_, ?_⟩
  · cases user with
    | none => simp [handleCommentSubmit]
    | some u =>
      by_cases h1 : jsTrim raw = []
      · simp [handleCommentSubmit, h1]
      · by_cases h2 : isValidCommentText (jsTrim raw) = false
        · simp [handleCommentSubmit, h1, h2, List.isEmpty_iff]
        · simp [handleCommentSubmit, h1, h2, List.isEmpty_iff]
  · intro u hu h1 h2
    subst hu
    simp [handleCommentSubmit, List.isEmpty_iff, h1, h2]
  · intro c h
    unfold specAllowedChar at h
    unfold allowedCommentChar
    rw [Bool.or_eq_true, Bool.or_eq_true, Bool.or_eq_true] at h
    rw [Bool.or_eq_true, Bool.or_eq_true]
    rcases h with ((h | h) | h) | h
    · exact Or.inl (Or.inl h)
    · have hc : c = ' ' := by simpa using h
      subst hc
      exact Or.inl (Or.inr (by decide))
    · have hc : c.toNat = 10 := by simpa using h
      refine Or.inl (Or.inr ?_)
      simp [jsWhitespace, hc]
    · exact Or.inr h

theorem submit_validation_witness :
    handleCommentSubmit (some "alice") "Mockville" greatVideoRaw 7 [] =
      .ok [{ id := toString 7, user := "alice", city := "Mockville",
             text := String.mk (jsTrim greatVideoRaw),
             translatedText := none, targetLang := none,
             likes := 0, dislikes := 0, timestamp := 7 }] :=
  (submit_validation (some "alice") "Mockville" greatVideoRaw 7 []).2.1 "alice"
    rfl (by decide) (by decide)

/-- Claim C5: dislike on an id present once in the collection bumps its
dislike count when still below the threshold, and hard-deletes the comment
from the collection, raising the removal flag, the moment the count reaches
2; like or dislike on an id not in the collection is a silent no-op that
returns the collection unchanged without raising anything. -/
theorem dislike_threshold_and_missing_id (idq : String) :
    (∀ comments : List Comment, (∀ c ∈ comments, c.id ≠ idq) →
        handleDislike idq comments = (comments, false)
      ∧ handleLike idq comments = comments)
  ∧ (∀ (pre post : List Comment) (c : Comment),
        c.id = idq → (∀ d ∈ pre, d.id ≠ idq) → (∀ d ∈ post, d.id ≠ idq) →
        (c.dislikes + 1 < 2 →
            handleDislike idq (pre ++ c :: post) =
              (pre ++ { c with dislikes := c.dislikes + 1 } :: post, false))
      ∧ (2 ≤ c.dislikes + 1 →
            handleDislike idq (pre ++ c :: post) = (pre ++ post, true))
      ∧ handleLike idq (pre ++ c :: post) =
            pre ++ { c with likes := c.likes + 1 } :: post) := by
  constructor
  · intro comments h
    have hd := dislike_map_absent idq comments h
    refine ⟨?_, handleLike_absent idq comments h⟩
    simp only [handleDislike]
    rw [hd.1, hd.2]
  · intro pre post c hc hpre hpost
    have hdpre := dislike_map_absent idq pre hpre
    have hdpost := dislike_map_absent idq post hpost
    have hlpre := handleLike_absent idq pre hpre
    have hlpost := handleLike_absent idq post hpost
    refine ⟨?_, ?_, ?_⟩
    · intro hlt
      have hni : ¬ (2 ≤ c.dislikes + 1) := by omega
      simp only [handleDislike, List.map_append, List.map_cons, List.filterMap_append,
        List.filterMap_cons, List.any_append, List.any_cons, dislikeTransform,
        if_pos hc, if_neg hni]
      rw [hdpre.1, hdpre.2, hdpost.1, hdpost.2]
      simp
    · intro hge
      simp only [handleDislike, List.map_append, List.map_cons, List.filterMap_append,
        List.filterMap_cons, List.any_append, List.any_cons, dislikeTransform,
        if_pos hc, if_pos hge]
      rw [hdpre.1, hdpre.2, hdpost.1, hdpost.2]
      simp
    · simp only [handleLike] at hlpre hlpost
      simp only [handleLike, List.map_append, List.map_cons, if_pos hc]
      rw [hlpre, hlpost]

theorem dislike_threshold_witness :
    handleDislike "c3" [oneDislikeComment] = ([], true)
  ∧ handleDislike "zz" [oneDislikeComment] = ([oneDislikeComment], false)
  ∧ handleLike "zz" [oneDislikeComment] = [oneDislikeComment] := by
  refine ⟨?_, ?_, ?_⟩
  · exact ((dislike_threshold_and_missing_id "c3").2 [] [] oneDislikeComment
      rfl (by simp) (by simp)).2.1 (by decide)
  · exact ((dislike_threshold_and_missing_id "zz").1 [oneDislikeComment] (by decide)).1
  · exact ((dislike_threshold_and_missing_id "zz").1 [oneDislikeComment] (by decide)).2

/-- Claim C10 (code bug): comment ids are Date.now().toString(), so two
submissions within the same millisecond produce two distinct comments with
the identical id "42"; ids are not pairwise unique under rapid repeated
submission, although the data model declares them unique and each comment's
id is used as its lookup and render key. -/
theorem duplicate_id_same_millisecond :
    handleCommentSubmit (some "alice") "Mockville" "first".data 42 [] = .ok [firstComment]
  ∧ handleCommentSubmit (some "bob") "Mockville" "second".data 42 [firstComment] =
      .ok [secondComment, firstComment]
  ∧ secondComment.id = firstComment.id
  ∧ firstComment ≠ secondComment := by
  refine ⟨rfl, rfl, rfl, by decide⟩

/-- Claim C9 counterexample: the definition following the claim's words
rejects an empty source list, but the player translated from the source
constructs a session over zero sources without any error, falling back to
empty strings for the url and quality. -/
theorem empty_sources_counterexample :
    specCreateSession [] freePlan = .error .configurationError
  ∧ initPlayer [] freePlan =
      { plan := freePlan, currentSourceUrl := "", selectedQuality := "",
        videoTime := 0, videoPaused := true, wasPlaying := false,
        timeLimitReached := false, pendingLoad := none } :=
  ⟨rfl, rfl⟩

/-- Claim C9 (amended): creating a player over an empty source list is not
rejected; the session is constructed with the empty string as its source url
and selected quality, paused at position zero. -/
theorem empty_sources_fallback (plan : Plan) :
    (initPlayer [] plan).currentSourceUrl = ""
  ∧ (initPlayer [] plan).selectedQuality = ""
  ∧ (initPlayer [] plan).videoPaused = true
  ∧ (initPlayer [] plan).videoTime = 0 :=
  ⟨rfl, rfl, rfl, rfl⟩

/-! Projection lemmas for the two effect bodies, used by the playback
claims. -/

theorem effectQualitySwitch_proj (sources : List VideoSource) (s : PState) :
    (effectQualitySwitch sources s).1.videoPaused = s.videoPaused
  ∧ (effectQualitySwitch sources s).1.wasPlaying = s.wasPlaying
  ∧ (effectQualitySwitch sources s).1.timeLimitReached = s.timeLimitReached
  ∧ (effectQualitySwitch sources s).1.videoTime = s.videoTime
  ∧ (effectQualitySwitch sources s).1.plan = s.plan
  ∧ Directive.limitAlert ∉ (effectQualitySwitch sources s).2
  ∧ Directive.playSink ∉ (effectQualitySwitch sources s).2 := by
  unfold effectQualitySwitch
  split
  · simp
  · split <;> simp

theorem effectPlanChange_proj (s : PState) :
    (effectPlanChange s).1.timeLimitReached = false
  ∧ (effectPlanChange s).1.videoTime = s.videoTime
  ∧ (effectPlanChange s).1.pendingLoad = s.pendingLoad
  ∧ (effectPlanChange s).1.currentSourceUrl = s.currentSourceUrl
  ∧ (effectPlanChange s).1.wasPlaying = s.wasPlaying
  ∧ Directive.limitAlert ∉ (effectPlanChange s).2
  ∧ (s.videoPaused = false → (effectPlanChange s).1.videoPaused = false)
  ∧ (s.wasPlaying = false → (effectPlanChange s).1.videoPaused = s.videoPaused) := by
  by_cases hg : (s.videoPaused && s.wasPlaying) = true
  · obtain ⟨hv, hw⟩ : s.videoPaused = true ∧ s.wasPlaying = true := by simpa using hg
    cases hm : s.plan.timeLimitMinutes with
    | none => simp [effectPlanChange, hv, hw, hm]
    | some m =>
      by_cases hlim : s.videoTime < m * 60
      · simp [effectPlanChange, hv, hw, hm, hlim]
      · simp [effectPlanChange, hv, hw, hm, hlim]
  · simp [effectPlanChange, hg]

/-- Claim C2 counterexample: a fresh free-plan session is played and ticks to
the 300 second limit: the lock happens (pause directive, limit alert,
timeLimitReached set). But a play event in the locked state is not rejected:
it resumes playback (videoPaused becomes false) and emits no notification at
all, contradicting the claim that play while locked is a no-op whose only
side effect is re-emitting the limit notification. -/
theorem limit_lock_play_counterexample :
    (stepTick playingState 300).2 = [Directive.pauseSink, Directive.limitAlert]
  ∧ lockedState.timeLimitReached = true
  ∧ lockedState.videoPaused = true
  ∧ (stepPlayEvt videoSources lockedState).1.videoPaused = false
  ∧ (stepPlayEvt videoSources lockedState).1.timeLimitReached = true
  ∧ (stepPlayEvt videoSources lockedState).2 = [] := by
  refine ⟨by decide, by decide, by decide, by decide, by decide, by decide⟩

/-- Claim C2 (amended): with a plan limit of m minutes and the lock not yet
set, a tick strictly below m times 60 seconds only updates the position,
while the first tick reaching it pauses the sink, sets timeLimitReached and
raises the limit alert exactly once; but a play event is never rejected: in
any state, including the locked one, it leaves the video playing and raises
no limit notification. -/
theorem time_limit_lock (s : PState) (t m : Nat)
    (hm : s.plan.timeLimitMinutes = some m) (hlr : s.timeLimitReached = false) :
    (t < m * 60 → stepTick s t = ({ s with videoTime := t }, []))
  ∧ (m * 60 ≤ t → stepTick s t =
      ({ s with videoTime := t, videoPaused := true, timeLimitReached := true },
       [Directive.pauseSink, Directive.limitAlert]))
  ∧ (∀ (sources : List VideoSource) (s2 : PState),
        (stepPlayEvt sources s2).1.videoPaused = false
      ∧ Directive.limitAlert ∉ (stepPlayEvt sources s2).2) := by
  refine ⟨?_, ?_, ?_⟩
  · intro hlt
    have hnot : ¬ (m * 60 ≤ t) := by omega
    simp [stepTick, hm, hlr, hnot]
  · intro hge
    simp [stepTick, hm, hlr, hge]
  · intro sources s2
    unfold stepPlayEvt
    by_cases hw : s2.wasPlaying
    · rw [if_pos hw]
      exact ⟨rfl, by simp⟩
    · rw [if_neg hw]
      have hq := effectQualitySwitch_proj sources
        { s2 with videoPaused := false, wasPlaying := true }
      have hp := effectPlanChange_proj
        (effectQualitySwitch sources { s2 with videoPaused := false, wasPlaying := true }).1
      constructor
      · exact hp.2.2.2.2.2.2.1 (by rw [hq.1])
      · simp only [List.mem_append, not_or]
        exact ⟨hq.2.2.2.2.2.1, hp.2.2.2.2.2.1⟩

theorem time_limit_lock_witness :
    stepTick playingState 299 = ({ playingState with videoTime := 299 }, [])
  ∧ stepTick playingState 300 =
      ({ playingState with videoTime := 300, videoPaused := true, timeLimitReached := true },
       [Directive.pauseSink, Directive.limitAlert]) :=
  ⟨(time_limit_lock playingState 299 5 (by decide) (by decide)).1 (by decide),
   (time_limit_lock playingState 300 5 (by decide) (by decide)).2.1 (by decide)⟩

/-- Claim C3 counterexample: after the lock, the pause event that the lock's
own pause necessarily fires changes the playing flag, which is a dependency
of the plan effect, whose body unconditionally clears timeLimitReached; so
limitReached does not remain true until a plan change: it is already false
after the very next pause event, with the plan untouched. -/
theorem limit_flag_not_monotonic :
    lockedState.timeLimitReached = true
  ∧ lockedState.wasPlaying = true
  ∧ (stepPauseEvt videoSources lockedState).1.timeLimitReached = false
  ∧ (stepPauseEvt videoSources lockedState).1.plan = lockedState.plan := by
  refine ⟨by decide, by decide, by decide, by decide⟩

/-- Claim C3 (amended): while timeLimitReached stays true, further ticks are
ignored and do not re-raise the notification; but timeLimitReached is not
monotonic until a plan change: it is cleared by any event that changes the
playing flag (a pause event while the flag was set, a play event while it
was clear) as well as by a change of plan, because the plan effect runs on
any of its two dependencies changing and unconditionally clears the flag. -/
theorem limit_flag_reset_rules (sources : List VideoSource) :
    (∀ (s : PState) (t : Nat), s.timeLimitReached = true →
        stepTick s t = ({ s with videoTime := t }, []))
  ∧ (∀ s : PState, s.wasPlaying = true →
        (stepPauseEvt sources s).1.timeLimitReached = false)
  ∧ (∀ s : PState, s.wasPlaying = false →
        (stepPlayEvt sources s).1.timeLimitReached = false)
  ∧ (∀ (s : PState) (p : Plan), ¬ p = s.plan →
        (stepSetPlan s p).1.timeLimitReached = false) := by
  refine ⟨?_, ?_, ?_, ?_⟩
  · intro s t h
    unfold stepTick
    cases hm : s.plan.timeLimitMinutes with
    | none => rfl
    | some m => simp [h]
  · intro s h
    unfold stepPauseEvt
    rw [if_neg (by simp [h])]
    exact (effectPlanChange_proj _).1
  · intro s h
    unfold stepPlayEvt
    rw [if_neg (by simp [h])]
    exact (effectPlanChange_proj _).1
  · intro s p h
    unfold stepSetPlan
    rw [if_neg h]
    exact (effectPlanChange_proj _).1

theorem limit_flag_reset_witness :
    stepTick lockedState 400 = ({ lockedState with videoTime := 400 }, [])
  ∧ (stepPauseEvt videoSources lockedState).1.timeLimitReached = false :=
  ⟨(limit_flag_reset_rules videoSources).1 lockedState 400 (by decide),
   (limit_flag_reset_rules videoSources).2.1 lockedState (by decide)⟩

theorem stepLoadedData_pending (s : PState) (T : Nat) (f : Bool)
    (hp : s.pendingLoad = some { capturedTime := T, resumeFlag := f }) :
    (stepLoadedData s).1.videoTime = T
  ∧ (stepLoadedData s).1.videoPaused = (!f && s.videoPaused)
  ∧ (stepLoadedData s).1.pendingLoad = none := by
  unfold stepLoadedData
  rw [hp]
  by_cases hT : 0 < T
  · cases f <;> cases hvp : s.videoPaused <;> simp [hT, hvp]
  · have hT0 : T = 0 := by omega
    subst hT0
    cases f <;> cases hvp : s.videoPaused <;> simp [hvp]

theorem stepSelectQuality_spec (sources : List VideoSource) (s : PState) (q : String)
    (src : VideoSource) (hq : ¬ q = s.selectedQuality)
    (hfind : sources.find? (fun v => decide (v.quality = q)) = some src)
    (hurl : ¬ src.url = s.currentSourceUrl) :
    ((stepSelectQuality sources s q).1.pendingLoad =
        some { capturedTime := s.videoTime, resumeFlag := !s.videoPaused })
  ∧ (stepSelectQuality sources s q).1.videoTime = s.videoTime
  ∧ (stepSelectQuality sources s q).1.currentSourceUrl = src.url
  ∧ (s.videoPaused = true → (stepSelectQuality sources s q).1.videoPaused = true) := by
  cases hvp : s.videoPaused <;> cases hw : s.wasPlaying
  · simp [stepSelectQuality, effectQualitySwitch, effectPlanChange,
      hvp, hw, hq, hfind, hurl]
    cases hm : s.plan.timeLimitMinutes with
    | none => simp
    | some m => by_cases hlim : s.videoTime < m * 60 <;> simp [hlim]
  · simp [stepSelectQuality, effectQualitySwitch, effectPlanChange,
      hvp, hw, hq, hfind, hurl]
  · simp [stepSelectQuality, effectQualitySwitch, effectPlanChange,
      hvp, hw, hq, hfind, hurl]
  · simp [stepSelectQuality, effectQualitySwitch, effectPlanChange,
      hvp, hw, hq, hfind, hurl]

/-- Claim C1: a quality switch to a different existing source captures the
position and the playing status at the moment of the switch: the installed
load closure carries exactly those two values, the position is untouched by
the switch itself, the source url changes to the requested one, and once the
load completes (which resets a fresh source to position zero) the closure
seeks back to the captured position and resumes exactly when the session was
playing at the switch, so the final position equals the position at the
switch (in particular it is zero only if it was zero at the switch) and the
final paused status equals the paused status at the switch. -/
theorem quality_switch_preserves_position (sources : List VideoSource) (s : PState)
    (q : String) (src : VideoSource)
    (hq : ¬ q = s.selectedQuality)
    (hfind : sources.find? (fun v => decide (v.quality = q)) = some src)
    (hurl : ¬ src.url = s.currentSourceUrl) :
    ((stepSelectQuality sources s q).1.pendingLoad =
        some { capturedTime := s.videoTime, resumeFlag := !s.videoPaused })
  ∧ (stepSelectQuality sources s q).1.currentSourceUrl = src.url
  ∧ (stepLoadedData (stepSelectQuality sources s q).1).1.videoTime = s.videoTime
  ∧ (stepLoadedData (stepSelectQuality sources s q).1).1.videoPaused = s.videoPaused := by
  obtain ⟨h1, h2, h3, h4⟩ := stepSelectQuality_spec sources s q src hq hfind hurl
  obtain ⟨hl1, hl2, hl3⟩ := stepLoadedData_pending _ _ _ h1
  refine ⟨h1, h3, hl1, ?_⟩
  cases hvp : s.videoPaused with
  | false =>
    rw [hl2, hvp]
    simp
  | true =>
    rw [hl2, hvp, h4 hvp]
    simp

theorem quality_switch_witness :
    ((stepSelectQuality videoSources midPlayState "720p").1.pendingLoad =
        some { capturedTime := 7, resumeFlag := true })
  ∧ (stepSelectQuality videoSources midPlayState "720p").1.currentSourceUrl =
      "http://commondatastorage.googleapis.com/gtv-videos-bucket/sample/ForBiggerBlazes.mp4"
  ∧ (stepLoadedData (stepSelectQuality videoSources midPlayState "720p").1).1.videoTime = 7
  ∧ (stepLoadedData (stepSelectQuality videoSources midPlayState "720p").1).1.videoPaused = false :=
  quality_switch_preserves_position videoSources midPlayState "720p"
    { quality := "720p",
      url := "http://commondatastorage.googleapis.com/gtv-videos-bucket/sample/ForBiggerBlazes.mp4" }
    (by decide) (by decide) (by decide)

end Uploadar
